import Mathlib

/-!
# Verification of the pipeline orchestration engine

A shallow embedding, in Lean 4, of the orchestration core of the
Cloud-Infrastructure-Automation repository: the shared pipeline state
(`GraphState` in `agents.py`), the agent stage functions, the routing
functions of `workflow.py`, and the rule-based error classifier of
`ErrorAnalyzerAgent`.

External collaborators (the text-generation service, the terraform
validate/fmt/apply binaries and the tfsec scanner) are modelled as
nondeterministic inputs or as explicit function parameters; everything the
repository's own Python code computes from their outputs is translated
directly from the source.

Python strings are modelled as Lean `String`; `in` (substring test),
`str.split`, `str.strip`, `str.lower` and the one regular expression used
by the error classifier are implemented below over `List Char`, restricted
to ASCII case-mapping, which covers every literal the source matches on.
-/

/-- Python whitespace characters recognised by `str.strip` (ASCII fragment). -/
def isPySpace (c : Char) : Bool :=
  c = ' ' || c = '\t' || c = '\n' || c = '\r' || c = '\x0b' || c = '\x0c'

/-- Boolean list-prefix test used by the substring machinery. -/
def isPre : List Char → List Char → Bool
  | [], _ => true
  | _ :: _, [] => false
  | a :: s, b :: t => if a = b then isPre s t else false

/-- Python `pat in s` on character lists: `pat` occurs contiguously in `s`. -/
def containsSub : List Char → List Char → Bool
  | [], pat => pat.isEmpty
  | c :: t, pat => isPre pat (c :: t) || containsSub t pat

/-- Python `pat in s` on strings. -/
def strContains (s pat : String) : Bool :=
  containsSub s.data pat.data

/-- Split a list at the first occurrence of `sep`, returning the part before
and the part after.  `none` when `sep` does not occur. -/
def splitFirst (s sep : List Char) : Option (List Char × List Char) :=
  match s with
  | [] => if isPre sep [] then some ([], []) else none
  | c :: t =>
    if isPre sep (c :: t) then some ([], (c :: t).drop sep.length)
    else (splitFirst t sep).map (fun p => (c :: p.1, p.2))

/-- Fuel-driven worker for `pySplit`; the fuel is an upper bound on the
number of separator occurrences, which `pySplit` instantiates with the
length of the input plus one. -/
def pySplitAux : Nat → List Char → List Char → List (List Char)
  | 0, s, _ => [s]
  | fuel + 1, s, sep =>
    match splitFirst s sep with
    | none => [s]
    | some (pre, post) => pre :: pySplitAux fuel post sep

/-- Python `s.split(sep)` for a non-empty separator, on character lists. -/
def pySplit (s sep : List Char) : List (List Char) :=
  pySplitAux (s.length + 1) s sep

/-- Python `s.split(sep)` on strings. -/
def pySplitStr (s sep : String) : List String :=
  (pySplit s.data sep.data).map String.mk

/-- Python `s.strip()` (ASCII whitespace). -/
def pyStrip (s : String) : String :=
  String.mk (((s.data.dropWhile isPySpace).reverse.dropWhile isPySpace).reverse)

/-- Python `s.lower()` (ASCII case mapping). -/
def pyLower (s : String) : String :=
  String.mk (s.data.map Char.toLower)

-- Basic lemmas about the substring machinery.

theorem isPre_append_self (p r : List Char) : isPre p (p ++ r) = true := by
  induction p with
  | nil => rfl
  | cons a s ih => simp [isPre, ih]

theorem containsSub_of_isPre (s pat : List Char) (h : isPre pat s = true) :
    containsSub s pat = true := by
  cases s with
  | nil =>
    cases pat with
    | nil => rfl
    | cons a t => simp [isPre] at h
  | cons c t => simp [containsSub, h]

theorem strContains_of_append (a b : String) :
    strContains (a ++ b) a = true := by
  have hdata : (a ++ b).data = a.data ++ b.data := by
    cases a; cases b; rfl
  unfold strContains
  rw [hdata]
  exact containsSub_of_isPre _ _ (isPre_append_self _ _)

theorem splitFirst_none (s sep : List Char) (h : containsSub s sep = false) :
    splitFirst s sep = none := by
  induction s with
  | nil =>
    unfold containsSub at h
    cases sep with
    | nil => simp [List.isEmpty] at h
    | cons c t => simp [splitFirst, isPre]
  | cons c t ih =>
    unfold containsSub at h
    obtain ⟨h1, h2⟩ : isPre sep (c :: t) = false ∧ containsSub t sep = false := by
      constructor <;> [skip; skip] <;>
        · cases hb : isPre sep (c :: t) <;> cases hc : containsSub t sep <;>
            simp [hb, hc] at h ⊢
    unfold splitFirst
    rw [if_neg (by simp [h1]), ih h2]
    rfl

theorem isPre_ne_head (c : Char) (sep' t : List Char) (c' : Char)
    (hne : c' ≠ c) : isPre (c :: sep') (c' :: t) = false := by
  unfold isPre
  rw [if_neg (fun h => hne h.symm)]

theorem splitFirst_sandwich (a sep b : List Char) (c : Char) (sep' : List Char)
    (hsep : sep = c :: sep') (ha : c ∉ a) :
    splitFirst (a ++ (sep ++ b)) sep = some (a, b) := by
  subst hsep
  induction a with
  | nil =>
    simp only [List.nil_append, List.cons_append]
    unfold splitFirst
    rw [if_pos (by have := isPre_append_self (c :: sep') b; simpa using this)]
    simp [List.length_cons, List.drop_left]
  | cons x a' ih =>
    have hxc : x ≠ c := by
      intro h; exact ha (by simp [h])
    have ha' : c ∉ a' := fun h => ha (List.mem_cons_of_mem _ h)
    have ih' := ih ha'
    simp only [List.cons_append] at ih'
    simp only [List.cons_append]
    unfold splitFirst
    rw [if_neg (by rw [isPre_ne_head c sep' _ x hxc]; simp), ih']
    rfl

theorem pySplitAux_of_none (fuel : Nat) (s sep : List Char)
    (h : splitFirst s sep = none) : pySplitAux fuel s sep = [s] := by
  cases fuel with
  | zero => rfl
  | succ n => unfold pySplitAux; rw [h]

theorem pySplit_sandwich (a sep b : List Char) (c : Char) (sep' : List Char)
    (hsep : sep = c :: sep') (ha : c ∉ a) (hb : containsSub b sep = false) :
    pySplit (a ++ (sep ++ b)) sep = [a, b] := by
  unfold pySplit pySplitAux
  rw [splitFirst_sandwich a sep b c sep' hsep ha]
  simp only
  rw [pySplitAux_of_none _ _ _ (splitFirst_none b sep hb)]

/-!
## Data model

`GraphState` values are built from strings, booleans, string-keyed maps and
lists of file specifications.  Python `dict` is modelled as an ordered
association list with the same update semantics (existing keys keep their
position and get the new value, new keys are appended).
-/

/-- A filename-to-content map (Python `Dict[str, str]`, insertion ordered). -/
def FileMap : Type := List (String × String)

instance : DecidableEq FileMap := by
  unfold FileMap
  infer_instance

/-- One entry of the Planner's file structure: `{"file_name": ..., "brief": ...}`. -/
structure FileSpec where
  file_name : String
  brief : String
deriving DecidableEq, Repr

/-- Python `d[key]` lookup returning `none` when the key is absent. -/
def dictGet? : FileMap → String → Option String
  | [], _ => none
  | (k, v) :: t, key => if k = key then some v else dictGet? t key

/-- Python `d[key] = val`: replace in place when present, append otherwise. -/
def dictInsert : FileMap → String → String → FileMap
  | [], key, val => [(key, val)]
  | (k, v) :: t, key, val =>
    if k = key then (key, val) :: t else (k, v) :: dictInsert t key val

theorem dictGet_insert_self (m : FileMap) (k v : String) :
    dictGet? (dictInsert m k v) k = some v := by
  induction m with
  | nil => simp [dictInsert, dictGet?]
  | cons p t ih =>
    obtain ⟨k', v'⟩ := p
    by_cases h : k' = k
    · simp [dictInsert, dictGet?, h]
    · simp [dictInsert, dictGet?, h, ih]

theorem dictGet_insert_ne (m : FileMap) (k v k' : String) (h : k' ≠ k) :
    dictGet? (dictInsert m k v) k' = dictGet? m k' := by
  have hk : k ≠ k' := Ne.symm h
  induction m with
  | nil => simp [dictInsert, dictGet?, hk]
  | cons p t ih =>
    obtain ⟨k0, v0⟩ := p
    by_cases h0 : k0 = k
    · subst h0
      simp [dictInsert, dictGet?, hk]
    · by_cases h1 : k0 = k'
      · simp [dictInsert, dictGet?, h0, h1, h]
      · simp [dictInsert, dictGet?, h0, h1, ih]

/-- A JSON value, the shape of what Python's `json.loads` can return for the
Planner's structured response. -/
inductive JValue where
  | jnull : JValue
  | jbool : Bool → JValue
  | jnum : Int → JValue
  | jstr : String → JValue
  | jarr : List JValue → JValue
  | jobj : List (String × JValue) → JValue

/-- Python truthiness (`bool(v)`) for a JSON value. -/
def JValue.truthy : JValue → Bool
  | .jnull => false
  | .jbool b => b
  | .jnum n => decide (n ≠ 0)
  | .jstr s => !s.isEmpty
  | .jarr xs => !xs.isEmpty
  | .jobj fs => !fs.isEmpty

/-- Association lookup inside a parsed JSON object. -/
def jobjLookup : List (String × JValue) → String → Option JValue
  | [], _ => none
  | (k, v) :: t, key => if k = key then some v else jobjLookup t key

/-- Python `parsed.get(key, default)` on a parsed JSON object. -/
def jobjGet (fields : List (String × JValue)) (key : String) (dflt : JValue) :
    JValue :=
  (jobjLookup fields key).getD dflt

/-!
## Shared helper functions (`agents.py`)
-/

/-- `MAX_RETRIES` from `agents.py` / `workflow.py`. -/
def MAX_RETRIES : Nat := 3

/-- `ToolResponseMessages.VALIDATION_SUCCESS` (`tools.py`). -/
def VALIDATION_SUCCESS : String := "Validation successful"

/-- `ToolResponseMessages.SECURITY_SUCCESS` (`tools.py`). -/
def SECURITY_SUCCESS : String := "No security issues detected"

/-- `ToolResponseMessages.VALIDATION_PREFIX` (`tools.py`). -/
def VALIDATION_PREFIX : String := "Formatted Files JSON:"

/-- The fence markers tried, in order, by `_clean_markdown_code_fences`. -/
def fenceList : List String := ["```hcl", "```terraform", "```"]

/-- One iteration of the fence-removal loop body: `some` when the fence
matched (the Python loop then breaks), `none` otherwise. -/
def applyFence (code fence : String) : Option String :=
  if strContains code fence then
    match pySplitStr code fence with
    | _ :: p1 :: _ =>
      some (if fence = "```" then p1 else (pySplitStr p1 "```").headD "")
    | _ => none
  else none

/-- The `for fence in [...]` loop of `_clean_markdown_code_fences`. -/
def cleanFencesLoop : String → List String → String
  | code, [] => code
  | code, f :: rest =>
    match applyFence code f with
    | some c => c
    | none => cleanFencesLoop code rest

/-- `_clean_markdown_code_fences` from `agents.py`: strip the input, remove
the first matching markdown fence wrapper, and strip the result. -/
def clean_markdown_code_fences (code : String) : String :=
  pyStrip (cleanFencesLoop (pyStrip code) fenceList)

/-!
## Error classifier (`ErrorAnalyzerAgent`, `agents.py`)
-/

/-- Result of `_analyze_error_pattern`: the analysis dictionary.  `resource`
is present only for the `resource_exists` pattern. -/
structure ErrAnalysis where
  category : String
  strategy : String
  fix_description : String
  resource : Option String
deriving DecidableEq, Repr

/-- One row of the `error_patterns` rule table in `_analyze_error_pattern`. -/
structure ErrPattern where
  keywords : List String
  additional_keywords : Option (List String)
  required_keywords : Option (List String)
  category : String
  strategy : String
  description_template : String
  extract_resource : Bool
deriving DecidableEq, Repr

/-- The ordered `error_patterns` rule table, copied from the source. -/
def errorPatterns : List ErrPattern :=
  [ { keywords := ["already exists", "alreadyexists"],
      additional_keywords := none,
      required_keywords := none,
      category := "resource_exists",
      strategy := "add_random_suffix",
      description_template := "Add random_id suffix to {resource}",
      extract_resource := true },
    { keywords := ["db_subnet_group_name", "elasticache_subnet_group_name",
                   "cache_subnet_group_name"],
      additional_keywords := none,
      required_keywords := some ["not found", "does not exist", "missing",
                                 "invalid", "required"],
      category := "missing_subnet_group",
      strategy := "add_subnet_group",
      description_template := "Add missing DB/cache subnet group resource",
      extract_resource := false },
    { keywords := ["security group", "security_group"],
      additional_keywords := some ["not found", "does not exist"],
      required_keywords := none,
      category := "missing_security_group",
      strategy := "add_security_group",
      description_template := "Add missing security group resource",
      extract_resource := false },
    { keywords := ["reference", "depends on", "no resource"],
      additional_keywords := none,
      required_keywords := none,
      category := "invalid_reference",
      strategy := "fix_reference",
      description_template := "Fix invalid resource reference",
      extract_resource := false },
    { keywords := ["iam"],
      additional_keywords := some ["role", "policy"],
      required_keywords := some ["not found", "does not exist"],
      category := "missing_iam",
      strategy := "add_iam_role",
      description_template := "Add missing IAM role/policy",
      extract_resource := false } ]

/-- `_matches_pattern`: primary keywords must hit, and the additional and
required keyword lists (when present) must each hit as well. -/
def matchesPattern (errorLower : String) (p : ErrPattern) : Bool :=
  (p.keywords.any (fun k => strContains errorLower k)) &&
  (match p.additional_keywords with
   | none => true
   | some ks => ks.any (fun k => strContains errorLower k)) &&
  (match p.required_keywords with
   | none => true
   | some ks => ks.any (fun k => strContains errorLower k))

/-- Try to match the regular expression `resource "([^"]+)" "([^"]+)"` at the
start of `l`; on success return the two captured groups.  The greedy `[^"]+`
groups are exactly the maximal runs of non-quote characters. -/
def matchResourceAt (l : List Char) : Option (List Char × List Char) :=
  let lit := "resource \"".data
  if isPre lit l then
    let rest := l.drop lit.length
    let g1 := rest.takeWhile (fun c => c ≠ '"')
    let r1 := rest.dropWhile (fun c => c ≠ '"')
    if g1.isEmpty then none
    else
      match r1 with
      | '"' :: ' ' :: '"' :: r2 =>
        let g2 := r2.takeWhile (fun c => c ≠ '"')
        let r3 := r2.dropWhile (fun c => c ≠ '"')
        if g2.isEmpty then none
        else
          match r3 with
          | '"' :: _ => some (g1, g2)
          | _ => none
      | _ => none
  else none

/-- `re.search` for the resource-declaration pattern: leftmost match wins. -/
def reSearchResource : List Char → Option (List Char × List Char)
  | [] => none
  | c :: t =>
    match matchResourceAt (c :: t) with
    | some p => some p
    | none => reSearchResource t

/-- `_extract_resource_from_report`: first `resource "type" "name"` match
formatted as `type.name`, or `"unknown"` when the pattern never matches. -/
def extract_resource_from_report (error_report : String) : String :=
  match reSearchResource error_report.data with
  | some (g1, g2) => String.mk g1 ++ "." ++ String.mk g2
  | none => "unknown"

/-- Worker for `strReplace`; fuel bounds the number of replacements. -/
def replaceAux : Nat → List Char → List Char → List Char → List Char
  | 0, s, _, _ => s
  | fuel + 1, s, pat, rep =>
    match splitFirst s pat with
    | none => s
    | some (pre, post) => pre ++ rep ++ replaceAux fuel post pat rep

/-- Replace every occurrence of `pat` in `s` by `rep`; used to model the
single `str.format(resource=...)` call on the `resource_exists` template,
whose only placeholder is the literal `{resource}`. -/
def strReplace (s pat rep : String) : String :=
  String.mk (replaceAux (s.data.length + 1) s.data pat.data rep.data)

/-- `_analyze_error_pattern` from `agents.py`: the security branch first,
then the ordered rule table (first match wins), then the unknown fallback. -/
def analyze_error_pattern (error_report error_type : String) :
    Bool × ErrAnalysis :=
  let error_lower := pyLower error_report
  if error_type = "security" then
    if strContains error_lower "high" || strContains error_lower "critical" then
      (false, { category := "security_issues", strategy := "full_retry",
                fix_description :=
                  "Security issues require full regeneration with updated requirements",
                resource := none })
    else
      (false, { category := "security_warning", strategy := "skip",
                fix_description :=
                  "Minor security warnings - can proceed with deployment",
                resource := none })
  else
    match errorPatterns.find? (fun p => matchesPattern error_lower p) with
    | some p =>
      if p.extract_resource then
        let resource := extract_resource_from_report error_report
        (true, { category := p.category, strategy := p.strategy,
                 fix_description :=
                   strReplace p.description_template "{resource}" resource,
                 resource := some resource })
      else
        (true, { category := p.category, strategy := p.strategy,
                 fix_description := p.description_template,
                 resource := none })
    | none =>
      (false, { category := "unknown", strategy := "full_retry",
                fix_description := "Complex error requiring full regeneration",
                resource := none })

/-!
## Agent stage functions (`agents.py`)

Each `run` method returns a partial-state patch.  Fields a stage may leave
out of its patch are modelled as `Option` fields (`none` = absent, the
orchestrator keeps the previous value).  The text-generation collaborator's
response and the subprocess tool outputs are explicit parameters.
-/

/-- Patch returned by `PlannerArchitectAgent.run`.  `plan` and
`file_structure` are raw JSON values, as in the Python source, where they
are whatever `json.loads` produced under those keys. -/
structure PlannerPatch where
  plan : JValue
  file_structure : JValue
  retry_count : Nat

/-- The retry-count logic at the top of `PlannerArchitectAgent.run`:
increment only when a previous validation report exists and validation did
not pass. -/
def plannerNextRetry (retry0 : Nat) (validation_report : String)
    (validation_passed : Bool) : Nat :=
  if validation_report ≠ "" ∧ validation_passed = false then retry0 + 1
  else retry0

/-- `_create_fallback_structure` from `agents.py`: the fixed two-item
fallback plan (provider/config entry plus primary-resource entry). -/
def create_fallback_structure (initial_request : String) : PlannerPatch :=
  { plan := .jstr "1. Configure AWS provider\n2. Create requested resources with security",
    file_structure := .jarr
      [ .jobj [("file_name", .jstr "provider.tf"),
               ("brief", .jstr "Standard AWS provider configuration for the \x27us-east-1\x27 region.")],
        .jobj [("file_name", .jstr "main.tf"),
               ("brief", .jstr ("Create all resources needed for: " ++ initial_request))] ],
    retry_count := 0 }

/-- `PlannerArchitectAgent.run`.  `parse` is the outcome of
`_parse_llm_json_response` on the collaborator's response: `none` when that
helper raised (`json.JSONDecodeError`/`ValueError`), otherwise the parsed
top-level JSON object.  All three return paths include the computed
`retry_count`. -/
def plannerRun (initial_request : String) (retry0 : Nat)
    (validation_report : String) (validation_passed : Bool)
    (parse : Option (List (String × JValue))) : PlannerPatch :=
  let retry_count := plannerNextRetry retry0 validation_report validation_passed
  match parse with
  | none => { create_fallback_structure initial_request with retry_count := retry_count }
  | some fields =>
    let plan := jobjGet fields "plan" (.jstr "")
    let file_structure := jobjGet fields "files" (.jarr [])
    if plan.truthy = false || file_structure.truthy = false then
      { create_fallback_structure initial_request with retry_count := retry_count }
    else
      { plan := plan, file_structure := file_structure, retry_count := retry_count }

/-- `CodeGeneratorAgent.run`: `none` models the empty patch returned when
`file_structure` is empty; otherwise the updated `generated_files` map and
the remaining queue.  `response` is the collaborator's raw reply. -/
def codeGeneratorRun (file_structure : List FileSpec)
    (generated_files : FileMap) (response : String) :
    Option (FileMap × List FileSpec) :=
  match file_structure with
  | [] => none
  | spec :: rest =>
    some (dictInsert generated_files spec.file_name
            (clean_markdown_code_fences response), rest)

/-- Patch returned by `SecurityScannerAgent.run`.  `security_warning` is
absent from the success patch. -/
structure SecurityPatch where
  security_report : String
  security_passed : Bool
  security_warning : Option Bool
deriving DecidableEq, Repr

/-- `SecurityScannerAgent.run` as a function of the scan tool's report:
when the report carries the success marker the patch passes; otherwise the
source's "Option B" branch still passes but raises the warning flag. -/
def securityScannerRun (security_report : String) : SecurityPatch :=
  let security_passed := strContains security_report SECURITY_SUCCESS
  if security_passed then
    { security_report := security_report, security_passed := true,
      security_warning := none }
  else
    { security_report := security_report, security_passed := true,
      security_warning := some true }

/-- Patch returned by `DeployerAgent.run`; only `deployment_report` is
always present. -/
structure DeployerPatch where
  deployment_report : String
  deployment_passed : Option Bool
  validation_report : Option String
  validation_passed : Option Bool
deriving DecidableEq, Repr

/-- `DeployerAgent.run` as a function of the precondition flags, the
existing validation report and the apply tool's report. -/
def deployerRun (validation_passed security_passed : Bool)
    (validation_report : String) (applyReport : String) : DeployerPatch :=
  if validation_passed = false then
    { deployment_report := "Skipping deployment because validation failed.",
      deployment_passed := none, validation_report := none,
      validation_passed := none }
  else if security_passed = false then
    { deployment_report := "Skipping deployment because security scan failed.",
      deployment_passed := none, validation_report := none,
      validation_passed := none }
  else if strContains applyReport "Terraform apply successful" then
    { deployment_report := applyReport, deployment_passed := some true,
      validation_report := none, validation_passed := none }
  else
    { deployment_report := applyReport, deployment_passed := some false,
      validation_report := some (validation_report ++
        "\n\n--- DEPLOYMENT ERRORS ---\n" ++ applyReport),
      validation_passed := some false }

/-- Patch returned by `ErrorAnalyzerAgent.run`.  `error_analysis` is `none`
for the degenerate "No error report" branch (where the source stores a bare
string instead of an analysis dictionary); `fix_strategy` is present only
on the fixable branch. -/
structure ErrAnalyzerPatch where
  needs_full_retry : Bool
  error_analysis : Option ErrAnalysis
  fix_strategy : Option String
deriving DecidableEq, Repr

/-- `ErrorAnalyzerAgent.run`: pick the highest-priority failing report
(validation, then security, then deployment), then classify it. -/
def errorAnalyzerRun (validation_passed : Bool) (validation_report : String)
    (security_passed : Bool) (security_report : String)
    (deployment_passed : Bool) (deployment_report : String) :
    ErrAnalyzerPatch :=
  let pick : String × String :=
    if validation_passed = false then (validation_report, "validation")
    else if security_passed = false then (security_report, "security")
    else if deployment_passed = false then (deployment_report, "deployment")
    else ("", "")
  if pick.1 = "" then
    { needs_full_retry := true, error_analysis := none, fix_strategy := none }
  else
    let res := analyze_error_pattern pick.1 pick.2
    if res.1 then
      { needs_full_retry := false, error_analysis := some res.2,
        fix_strategy := some res.2.strategy }
    else
      { needs_full_retry := true, error_analysis := some res.2,
        fix_strategy := none }

/-- Patch returned by `TargetedFixAgent.run`. -/
structure TargetedFixPatch where
  generated_files : FileMap
  targeted_fix_applied : Bool
  targeted_fix_strategy : String
  targeted_fix_description : String
deriving DecidableEq

/-- `TargetedFixAgent.run`: clean the collaborator's reply and write it over
the `main.tf` entry of `generated_files`, whatever artifact the error came
from. -/
def targetedFixRun (generated_files : FileMap)
    (error_analysis : Option ErrAnalysis) (response : String) :
    TargetedFixPatch :=
  let strategy := match error_analysis with
    | some a => a.strategy
    | none => "unknown"
  let fixed_code := clean_markdown_code_fences response
  { generated_files := dictInsert generated_files "main.tf" fixed_code,
    targeted_fix_applied := true,
    targeted_fix_strategy := strategy,
    targeted_fix_description := match error_analysis with
      | some a => a.fix_description
      | none => "N/A" }

/-!
## Validator (`CodeValidatorAgent.run` plus `terraform_validate_tool`)

The validate tool (`tools.py`) shells out to `terraform init/validate/fmt`
and serialises the formatted files with `json.dumps`; the agent splits the
report on `VALIDATION_PREFIX` and re-parses with `json.loads`.  The
external binaries and the stdlib JSON codec are the collaborator here,
modelled as the fields of a `ValidatorEnv`.
-/

/-- The external pieces the validator path calls out to: `terraform fmt`
(`fmt`), the pass/fail outcome of `terraform init`+`validate` (`valOk`),
the error text built by `_format_error_message` on failure (`errText`),
and the stdlib `json.dumps`/`json.loads` pair restricted to
filename-to-content maps. -/
structure ValidatorEnv where
  fmt : FileMap → FileMap
  valOk : FileMap → Bool
  errText : FileMap → String
  dumps : FileMap → String
  loads : String → Option FileMap

/-- The fixed prose between the success marker and the JSON payload in
`terraform_validate_tool`'s success message. -/
def successHeader : String :=
  VALIDATION_SUCCESS ++ ". Code is syntactically correct and well-formed.\n\n"

/-- `terraform_validate_tool` from `tools.py`: on success, the success
header followed by `VALIDATION_PREFIX` and the JSON dump of the formatted
files; on failure, the formatted error message. -/
def terraform_validate_tool (env : ValidatorEnv) (files : FileMap) : String :=
  if env.valOk files then
    successHeader ++ VALIDATION_PREFIX ++ ("\n" ++ env.dumps (env.fmt files))
  else env.errText files

/-- Patch returned by `CodeValidatorAgent.run`. -/
structure ValidatorPatch where
  validation_report : String
  validation_passed : Bool
  generated_files : FileMap

/-- `CodeValidatorAgent.run`: invoke the validate tool, read the pass flag
off the success marker, and on success re-parse the canonicalised files
from the report (keeping the input files when the split or the parse
fails). -/
def codeValidatorRun (env : ValidatorEnv) (files : FileMap) : ValidatorPatch :=
  let validation_report := terraform_validate_tool env files
  let validation_passed := strContains validation_report VALIDATION_SUCCESS
  let formatted_files :=
    if validation_passed then
      match pySplitStr validation_report VALIDATION_PREFIX with
      | _ :: p1 :: _ =>
        match env.loads (pyStrip p1) with
        | some m => m
        | none => files
      | _ => files
    else files
  { validation_report := validation_report,
    validation_passed := validation_passed,
    generated_files := formatted_files }

/-!
## Routers and workflow transition system (`workflow.py`)

The LangGraph workflow is modelled as a small-step transition relation on a
`WState` carrying the `GraphState` fields plus the current node.  Each step
runs one node with an arbitrary collaborator outcome, merges the returned
patch, and moves to the node chosen by that node's router.
-/

/-- The workflow's nodes, plus the `END` sentinel (`terminal`). -/
inductive Node where
  | planner
  | codeGenerator
  | codeValidator
  | securityScanner
  | deployer
  | costEstimator
  | errorAnalyzer
  | targetedFixer
  | terminal
deriving DecidableEq, Repr

/-- The graph state threaded through the workflow, together with the
current node.  Missing-key defaults of the Python `TypedDict` are the
falsy values (`""`, `false`, empty containers) used in `initState`. -/
structure WState where
  node : Node
  initial_request : String
  plan : String
  file_structure : List FileSpec
  generated_files : FileMap
  validation_report : String
  validation_passed : Bool
  human_feedback : String
  security_report : String
  security_passed : Bool
  security_warning : Bool
  deployment_report : String
  deployment_passed : Bool
  retry_count : Nat
  cost_report : String
  cost_passed : Bool
  error_analysis : Option ErrAnalysis
  needs_full_retry : Bool
  fix_strategy : String
  targeted_fix_applied : Bool
  targeted_fix_strategy : String
  targeted_fix_description : String

/-- `_retry_or_end_router` from `workflow.py`: back to the Planner when
human feedback is present or the retry budget is not exhausted. -/
def retry_or_end_router (s : WState) : String :=
  if s.human_feedback ≠ "" ∨ s.retry_count < MAX_RETRIES then
    "planner_architect"
  else "end"

/-- `code_generation_router`: loop while the file queue is non-empty. -/
def code_generation_router (s : WState) : String :=
  if s.file_structure ≠ [] then "code_generator" else "code_validator"

/-- `validation_router`. -/
def validation_router (s : WState) : String :=
  if s.validation_passed then "security_scanner" else "error_analyzer"

/-- `error_analysis_router`. -/
def error_analysis_router (s : WState) : String :=
  if s.needs_full_retry then retry_or_end_router s else "targeted_fixer"

/-- `targeted_fix_router`: unconditionally back to the validator. -/
def targeted_fix_router (_ : WState) : String :=
  "code_validator"

/-- `security_router`. -/
def security_router (s : WState) : String :=
  if s.security_passed then "deployer" else "error_analyzer"

/-- `deployment_router`. -/
def deployment_router (s : WState) : String :=
  if s.deployment_passed then "cost_estimator" else "error_analyzer"

/-- `cost_router`: always the terminal sentinel. -/
def cost_router (_ : WState) : String :=
  "end"

/-- Node names as used in the workflow's conditional-edge tables. -/
def stringToNode : String → Node
  | "planner_architect" => .planner
  | "code_generator" => .codeGenerator
  | "code_validator" => .codeValidator
  | "security_scanner" => .securityScanner
  | "deployer" => .deployer
  | "cost_estimator" => .costEstimator
  | "error_analyzer" => .errorAnalyzer
  | "targeted_fixer" => .targetedFixer
  | _ => .terminal

/-- Run the Planner node and follow the unconditional edge to the code
generator.  `parse` is the nondeterministic collaborator/parse outcome, and
the `retry_count` arithmetic comes from `plannerRun` on it; the merged
`plan` and `file_structure` contents are the typed reading of whatever the
collaborator produced (or the fallback), left nondeterministic here because
the retry/termination claims never inspect them beyond emptiness. -/
def plannerApply (s : WState) (parse : Option (List (String × JValue)))
    (patchedPlan : String) (patchedFiles : List FileSpec) : WState :=
  let p := plannerRun s.initial_request s.retry_count s.validation_report
    s.validation_passed parse
  { s with node := .codeGenerator,
           plan := patchedPlan,
           file_structure := patchedFiles,
           retry_count := p.retry_count }

/-- Run the code generator node and follow `code_generation_router`.
`response` is the collaborator's reply. -/
def generatorApply (s : WState) (response : String) : WState :=
  let s' :=
    match codeGeneratorRun s.file_structure s.generated_files response with
    | none => s
    | some (gf, fs) => { s with generated_files := gf, file_structure := fs }
  { s' with node := stringToNode (code_generation_router s') }

/-- Run the validator node and follow `validation_router`.  `report` is the
nondeterministic tool report; `parsed` is the outcome of re-parsing the
formatted files from it (`none` when the split or `json.loads` failed, in
which case the source keeps the previous files). -/
def validatorApply (s : WState) (report : String) (parsed : Option FileMap) :
    WState :=
  let passed := strContains report VALIDATION_SUCCESS
  let gf := if passed then
      match parsed with
      | some m => m
      | none => s.generated_files
    else s.generated_files
  let s' := { s with validation_report := report, validation_passed := passed,
                     generated_files := gf }
  { s' with node := stringToNode (validation_router s') }

/-- Run the security scanner node and follow `security_router`. -/
def securityApply (s : WState) (scanReport : String) : WState :=
  let p := securityScannerRun scanReport
  let s' := { s with security_report := p.security_report,
                     security_passed := p.security_passed,
                     security_warning := p.security_warning.getD s.security_warning }
  { s' with node := stringToNode (security_router s') }

/-- Run the deployer node and follow `deployment_router`.  `applyReport` is
the apply tool's nondeterministic report. -/
def deployerApply (s : WState) (applyReport : String) : WState :=
  let p := deployerRun s.validation_passed s.security_passed
    s.validation_report applyReport
  let s' := { s with deployment_report := p.deployment_report,
                     deployment_passed := p.deployment_passed.getD s.deployment_passed,
                     validation_report := p.validation_report.getD s.validation_report,
                     validation_passed := p.validation_passed.getD s.validation_passed }
  { s' with node := stringToNode (deployment_router s') }

/-- Run the cost estimator node and follow `cost_router`; cost estimation
is informational and always passes. -/
def costApply (s : WState) (costReport : String) : WState :=
  let s' := { s with cost_report := costReport, cost_passed := true }
  { s' with node := stringToNode (cost_router s') }

/-- The state after merging the error analyzer's patch, before routing. -/
def errorAnalyzerMerge (s : WState) : WState :=
  let p := errorAnalyzerRun s.validation_passed s.validation_report
    s.security_passed s.security_report s.deployment_passed s.deployment_report
  { s with needs_full_retry := p.needs_full_retry,
           error_analysis := p.error_analysis,
           fix_strategy := p.fix_strategy.getD s.fix_strategy }

/-- Run the error analyzer node and follow `error_analysis_router`. -/
def errorAnalyzerApply (s : WState) : WState :=
  { errorAnalyzerMerge s with
    node := stringToNode (error_analysis_router (errorAnalyzerMerge s)) }

/-- Run the targeted fixer node and follow `targeted_fix_router`. -/
def targetedFixApply (s : WState) (response : String) : WState :=
  let p := targetedFixRun s.generated_files s.error_analysis response
  let s' := { s with generated_files := p.generated_files,
                     targeted_fix_applied := p.targeted_fix_applied,
                     targeted_fix_strategy := p.targeted_fix_strategy,
                     targeted_fix_description := p.targeted_fix_description }
  { s' with node := stringToNode (targeted_fix_router s') }

/-- One workflow step: run the current node with an arbitrary collaborator
outcome, merge its patch and move to the routed node. -/
inductive Step : WState → WState → Prop where
  | planner (s : WState) (parse : Option (List (String × JValue)))
      (plan : String) (fs : List FileSpec) (h : s.node = .planner) :
      Step s (plannerApply s parse plan fs)
  | generator (s : WState) (response : String) (h : s.node = .codeGenerator) :
      Step s (generatorApply s response)
  | validator (s : WState) (report : String) (parsed : Option FileMap)
      (h : s.node = .codeValidator) :
      Step s (validatorApply s report parsed)
  | security (s : WState) (scanReport : String) (h : s.node = .securityScanner) :
      Step s (securityApply s scanReport)
  | deployer (s : WState) (applyReport : String) (h : s.node = .deployer) :
      Step s (deployerApply s applyReport)
  | cost (s : WState) (costReport : String) (h : s.node = .costEstimator) :
      Step s (costApply s costReport)
  | analyzer (s : WState) (h : s.node = .errorAnalyzer) :
      Step s (errorAnalyzerApply s)
  | fixer (s : WState) (response : String) (h : s.node = .targetedFixer) :
      Step s (targetedFixApply s response)

/-- The state a session starts from (`app.py` passes `initial_request`,
`human_feedback` and `retry_count = 0`; every other key is absent and reads
back as its falsy default).  The entry point is the Planner. -/
def initState (req feedback : String) : WState :=
  { node := .planner,
    initial_request := req,
    plan := "",
    file_structure := [],
    generated_files := [],
    validation_report := "",
    validation_passed := false,
    human_feedback := feedback,
    security_report := "",
    security_passed := false,
    security_warning := false,
    deployment_report := "",
    deployment_passed := false,
    retry_count := 0,
    cost_report := "",
    cost_passed := false,
    error_analysis := none,
    needs_full_retry := false,
    fix_strategy := "",
    targeted_fix_applied := false,
    targeted_fix_strategy := "",
    targeted_fix_description := "" }

/-- A state is reachable when some sequence of workflow steps produces it
from the initial state of a session. -/
def Reachable (req feedback : String) (s : WState) : Prop :=
  Relation.ReflTransGen Step (initState req feedback) s

/-!
## Claims
-/

/-- C9: for every security-originated error report, the classifier returns
category `security_issues` with strategy `full_retry` exactly when the
lower-cased report contains `"high"` or `"critical"`, and otherwise returns
category `security_warning` with the non-blocking strategy `skip`; in
particular a report containing `Severity: HIGH` yields `full_retry`, not
`skip`. -/
theorem security_severity_classification :
    (∀ error_report : String,
      analyze_error_pattern error_report "security" =
        if strContains (pyLower error_report) "high" ||
           strContains (pyLower error_report) "critical" then
          (false, { category := "security_issues", strategy := "full_retry",
                    fix_description :=
                      "Security issues require full regeneration with updated requirements",
                    resource := none })
        else
          (false, { category := "security_warning", strategy := "skip",
                    fix_description :=
                      "Minor security warnings - can proceed with deployment",
                    resource := none })) ∧
    (analyze_error_pattern "Severity: HIGH" "security").2.strategy = "full_retry" ∧
    (analyze_error_pattern "Severity: HIGH" "security").2.strategy ≠ "skip" ∧
    (analyze_error_pattern "Severity: HIGH" "security").2.category = "security_issues" := by
  refine ⟨fun error_report => ?_, by decide, by decide, by decide⟩
  rfl

/-- C2 counterexample: on a failing scan report, the scanner still returns
`security_passed = true` (with the warning flag), so no strict mode in
which `security_passed` mirrors the scan result exists; the policy is
hard-wired, not configurable (the `run` method reads no mode). -/
theorem security_mode_counterexample :
    strContains "Result 1 CRITICAL: bucket is not encrypted" SECURITY_SUCCESS
      = false ∧
    (securityScannerRun "Result 1 CRITICAL: bucket is not encrypted").security_passed
      = true ∧
    (securityScannerRun "Result 1 CRITICAL: bucket is not encrypted").security_warning
      = some true := by
  refine ⟨by decide, by decide, by decide⟩

/-- C2 (amended): the SecurityScanner implements a single hard-wired
advisory policy: `security_passed` is always forced true, and
`security_warning` is raised exactly when the scan report lacks the
success marker (issues were found); no strict mode is available. -/
theorem security_scanner_advisory_policy :
    ∀ security_report : String,
      (securityScannerRun security_report).security_passed = true ∧
      (securityScannerRun security_report).security_warning =
        (if strContains security_report SECURITY_SUCCESS then none
         else some true) := by
  intro security_report
  unfold securityScannerRun
  by_cases h : strContains security_report SECURITY_SUCCESS = true
  · simp [h]
  · simp at h
    simp [h]

/-- C4: whenever the Deployer's collaborator call fails (its report lacks
the apply-success marker while both preconditions held), the patch sets
`deployment_passed` to false, folds the deployment report into
`validation_report`, and clears `validation_passed`, after which the
deployment router re-engages the error-analysis/validation path. -/
theorem deployer_failure_folds_into_validation
    (validation_report applyReport : String)
    (hfail : strContains applyReport "Terraform apply successful" = false) :
    deployerRun true true validation_report applyReport =
      { deployment_report := applyReport,
        deployment_passed := some false,
        validation_report := some (validation_report ++
          "\n\n--- DEPLOYMENT ERRORS ---\n" ++ applyReport),
        validation_passed := some false } ∧
    (∀ s : WState, s.deployment_passed = false →
      deployment_router s = "error_analyzer") := by
  constructor
  · unfold deployerRun
    simp [hfail]
  · intro s hs
    unfold deployment_router
    simp [hs]

/-- C4 witness: the theorem applied at a concrete failing apply report. -/
theorem deployer_failure_folds_into_validation_witness :
    strContains "Error: creating S3 Bucket: BucketAlreadyExists"
      "Terraform apply successful" = false ∧
    deployerRun true true "Validation successful."
        "Error: creating S3 Bucket: BucketAlreadyExists" =
      { deployment_report := "Error: creating S3 Bucket: BucketAlreadyExists",
        deployment_passed := some false,
        validation_report := some ("Validation successful." ++
          "\n\n--- DEPLOYMENT ERRORS ---\n" ++
          "Error: creating S3 Bucket: BucketAlreadyExists"),
        validation_passed := some false } :=
  ⟨by decide,
   (deployer_failure_folds_into_validation "Validation successful."
     "Error: creating S3 Bucket: BucketAlreadyExists" (by decide)).1⟩

/-- C6: with a non-empty `file_structure` queue, one Generator invocation
removes exactly the first (FIFO) entry, so the queue length drops by one,
and stores the fence-stripped collaborator response in `generated_files`
under that entry's name. -/
theorem generator_pops_first_entry (file_structure : List FileSpec)
    (generated_files : FileMap) (response : String)
    (spec : FileSpec) (rest : List FileSpec)
    (hqueue : file_structure = spec :: rest) :
    codeGeneratorRun file_structure generated_files response =
      some (dictInsert generated_files spec.file_name
              (clean_markdown_code_fences response), rest) ∧
    rest.length + 1 = file_structure.length ∧
    dictGet? (dictInsert generated_files spec.file_name
                (clean_markdown_code_fences response)) spec.file_name =
      some (clean_markdown_code_fences response) := by
  subst hqueue
  exact ⟨rfl, by simp, dictGet_insert_self _ _ _⟩

/-- C6 witness: the theorem applied at a single-entry queue. -/
theorem generator_pops_first_entry_witness :
    codeGeneratorRun [{ file_name := "main.tf", brief := "an S3 bucket" }] []
        "```hcl\nresource \"aws_s3_bucket\" \"b\" \x7b\x7d\n```" =
      some (dictInsert [] "main.tf"
              (clean_markdown_code_fences
                "```hcl\nresource \"aws_s3_bucket\" \"b\" \x7b\x7d\n```"), []) ∧
    List.length ([] : List FileSpec) + 1 =
      List.length [{ file_name := "main.tf", brief := "an S3 bucket" : FileSpec }] ∧
    dictGet? (dictInsert [] "main.tf"
                (clean_markdown_code_fences
                  "```hcl\nresource \"aws_s3_bucket\" \"b\" \x7b\x7d\n```"))
        "main.tf" =
      some (clean_markdown_code_fences
             "```hcl\nresource \"aws_s3_bucket\" \"b\" \x7b\x7d\n```") :=
  generator_pops_first_entry _ [] _ _ [] rfl

/-- C10: the TargetedFixer writes the repaired code only under the fixed
key `main.tf` — whatever artifact the classified error came from — leaves
every other key unchanged, sets `targeted_fix_applied`, and the
targeted-fix router routes unconditionally to the validator. -/
theorem targeted_fix_writes_main_tf_only (generated_files : FileMap)
    (error_analysis : Option ErrAnalysis) (response : String) :
    dictGet? (targetedFixRun generated_files error_analysis response).generated_files
        "main.tf" = some (clean_markdown_code_fences response) ∧
    (∀ k : String, k ≠ "main.tf" →
      dictGet? (targetedFixRun generated_files error_analysis response).generated_files k
        = dictGet? generated_files k) ∧
    (targetedFixRun generated_files error_analysis response).targeted_fix_applied
      = true ∧
    (∀ s : WState, targeted_fix_router s = "code_validator") := by
  refine ⟨?_, ?_, rfl, fun _ => rfl⟩
  · exact dictGet_insert_self _ _ _
  · intro k hk
    exact dictGet_insert_ne _ _ _ _ hk

/-- C10 witness: the theorem applied at a two-artifact map; the non-target
key keeps its content. -/
theorem targeted_fix_writes_main_tf_only_witness :
    dictGet? (targetedFixRun [("provider.tf", "provider hcl")] none
                "fixed main").generated_files "main.tf" =
      some (clean_markdown_code_fences "fixed main") ∧
    dictGet? (targetedFixRun [("provider.tf", "provider hcl")] none
                "fixed main").generated_files "provider.tf" =
      some "provider hcl" ∧
    (targetedFixRun [("provider.tf", "provider hcl")] none
        "fixed main").targeted_fix_applied = true :=
  ⟨(targeted_fix_writes_main_tf_only _ none _).1,
   by
     have h := (targeted_fix_writes_main_tf_only
       [("provider.tf", "provider hcl")] none "fixed main").2.1
       "provider.tf" (by decide)
     rw [h]
     rfl,
   (targeted_fix_writes_main_tf_only _ none _).2.2.1⟩

/-- C8 counterexample: a non-security report that contains
`resource "aws_s3_bucket" "data" already exists` but whose first
resource-declaration match is an earlier, unrelated declaration; the
classifier extracts that earlier pair, not `aws_s3_bucket.data`. -/
theorem resource_exists_extraction_counterexample :
    strContains
        "resource \"a\" \"b\" ok resource \"aws_s3_bucket\" \"data\" already exists"
        "resource \"aws_s3_bucket\" \"data\" already exists" = true ∧
    (analyze_error_pattern
        "resource \"a\" \"b\" ok resource \"aws_s3_bucket\" \"data\" already exists"
        "validation").2.resource = some "a.b" ∧
    ("a.b" : String) ≠ "aws_s3_bucket.data" := by
  refine ⟨by decide, by decide, by decide⟩

/-- C8 (amended): for any non-security error report whose lower-cased text
contains `already exists`, the classifier returns category
`resource_exists` with strategy `add_random_suffix` and extracts, via the
resource-declaration pattern, the first resource declaration occurring in
the report; in particular, on the report
`resource "aws_s3_bucket" "data" already exists` the extracted resource is
`aws_s3_bucket.data`. -/
theorem resource_exists_classification (error_report error_type : String)
    (hsec : error_type ≠ "security")
    (hkey : strContains (pyLower error_report) "already exists" = true) :
    (analyze_error_pattern error_report error_type).1 = true ∧
    (analyze_error_pattern error_report error_type).2.category
      = "resource_exists" ∧
    (analyze_error_pattern error_report error_type).2.strategy
      = "add_random_suffix" ∧
    (analyze_error_pattern error_report error_type).2.resource
      = some (extract_resource_from_report error_report) ∧
    extract_resource_from_report
        "resource \"aws_s3_bucket\" \"data\" already exists"
      = "aws_s3_bucket.data" := by
  have hm : matchesPattern (pyLower error_report)
      { keywords := ["already exists", "alreadyexists"],
        additional_keywords := none, required_keywords := none,
        category := "resource_exists", strategy := "add_random_suffix",
        description_template := "Add random_id suffix to {resource}",
        extract_resource := true } = true := by
    unfold matchesPattern
    simp [hkey]
  have hrun : analyze_error_pattern error_report error_type =
      (true, { category := "resource_exists", strategy := "add_random_suffix",
               fix_description := strReplace "Add random_id suffix to {resource}"
                 "{resource}" (extract_resource_from_report error_report),
               resource := some (extract_resource_from_report error_report) }) := by
    unfold analyze_error_pattern errorPatterns
    rw [if_neg hsec, List.find?_cons_of_pos _ hm]
    rfl
  rw [hrun]
  exact ⟨rfl, rfl, rfl, rfl, by decide⟩

/-- C8 witness: the amended theorem applied at the literal report from the
spec, where the offending declaration is the first one. -/
theorem resource_exists_classification_witness :
    (("validation" : String) ≠ "security") ∧
    strContains (pyLower "resource \"aws_s3_bucket\" \"data\" already exists")
        "already exists" = true ∧
    (analyze_error_pattern "resource \"aws_s3_bucket\" \"data\" already exists"
        "validation").2.category = "resource_exists" ∧
    (analyze_error_pattern "resource \"aws_s3_bucket\" \"data\" already exists"
        "validation").2.resource =
      some (extract_resource_from_report
        "resource \"aws_s3_bucket\" \"data\" already exists") :=
  ⟨by decide, by decide,
   (resource_exists_classification _ _ (by decide) (by decide)).2.1,
   (resource_exists_classification _ _ (by decide) (by decide)).2.2.2.1⟩

/-- C5: for every malformed collaborator output — unparseable JSON, or a
parsed object missing the plan or the file list — the Planner propagates no
error and returns the fixed two-item fallback plan: a provider/config file
entry plus a primary-resource file entry. -/
theorem planner_fallback_on_malformed (initial_request : String)
    (retry0 : Nat) (validation_report : String) (validation_passed : Bool)
    (parse : Option (List (String × JValue)))
    (hmal : parse = none ∨ ∃ fields, parse = some fields ∧
      (jobjLookup fields "plan" = none ∨ jobjLookup fields "files" = none)) :
    plannerRun initial_request retry0 validation_report validation_passed parse
      = { plan := .jstr "1. Configure AWS provider\n2. Create requested resources with security",
          file_structure := .jarr
            [ .jobj [("file_name", .jstr "provider.tf"),
                     ("brief", .jstr "Standard AWS provider configuration for the \x27us-east-1\x27 region.")],
              .jobj [("file_name", .jstr "main.tf"),
                     ("brief", .jstr ("Create all resources needed for: " ++ initial_request))] ],
          retry_count := plannerNextRetry retry0 validation_report validation_passed } := by
  rcases hmal with h | ⟨fields, hp, hmiss⟩
  · subst h
    rfl
  · subst hp
    have hcond : (decide ((jobjGet fields "plan" (JValue.jstr "")).truthy = false) ||
        decide ((jobjGet fields "files" (JValue.jarr [])).truthy = false)) = true := by
      rcases hmiss with h | h
      · have hg : jobjGet fields "plan" (.jstr "") = .jstr "" := by
          unfold jobjGet
          rw [h]
          rfl
        rw [hg]
        show (true || _) = true
        exact Bool.true_or _
      · have hg : jobjGet fields "files" (.jarr []) = .jarr [] := by
          unfold jobjGet
          rw [h]
          rfl
        rw [hg]
        show (_ || true) = true
        exact Bool.or_true _
    unfold plannerRun
    dsimp only
    rw [hcond]
    rfl

/-- C5 witness: the theorem applied at an unparseable collaborator
response (`parse = none`). -/
theorem planner_fallback_on_malformed_witness :
    plannerRun "an encrypted S3 bucket" 0 "" false none
      = { plan := .jstr "1. Configure AWS provider\n2. Create requested resources with security",
          file_structure := .jarr
            [ .jobj [("file_name", .jstr "provider.tf"),
                     ("brief", .jstr "Standard AWS provider configuration for the \x27us-east-1\x27 region.")],
              .jobj [("file_name", .jstr "main.tf"),
                     ("brief", .jstr ("Create all resources needed for: " ++ "an encrypted S3 bucket"))] ],
          retry_count := plannerNextRetry 0 "" false } :=
  planner_fallback_on_malformed "an encrypted S3 bucket" 0 "" false none
    (Or.inl rfl)


/-!
## Retry-bound invariant (C1) support lemmas
-/

/-- All three return paths of the Planner carry the same computed retry
count. -/
theorem plannerRun_retry_count (req : String) (r0 : Nat) (vr : String)
    (vp : Bool) (parse : Option (List (String × JValue))) :
    (plannerRun req r0 vr vp parse).retry_count = plannerNextRetry r0 vr vp := by
  cases parse with
  | none => rfl
  | some fields =>
    unfold plannerRun
    dsimp only
    split <;> rfl

/-- The Planner raises the retry count by at most one per planning cycle. -/
theorem plannerNextRetry_le (r0 : Nat) (vr : String) (vp : Bool) :
    plannerNextRetry r0 vr vp ≤ r0 + 1 := by
  unfold plannerNextRetry
  split <;> omega

/-- The Planner leaves the retry count unchanged unless it re-enters after
a recorded validation failure. -/
theorem plannerNextRetry_no_failure (r0 : Nat) (vr : String) (vp : Bool)
    (h : ¬(vr ≠ "" ∧ vp = false)) : plannerNextRetry r0 vr vp = r0 := by
  unfold plannerNextRetry
  exact if_neg h

/-- The scanner's patch always passes (the hard-wired advisory policy). -/
theorem securityScannerRun_passed (r : String) :
    (securityScannerRun r).security_passed = true := by
  unfold securityScannerRun
  dsimp only
  split <;> rfl

theorem generatorApply_human_feedback (s : WState) (response : String) :
    (generatorApply s response).human_feedback = s.human_feedback := by
  unfold generatorApply
  cases hm : codeGeneratorRun s.file_structure s.generated_files response with
  | none => rfl
  | some p =>
    obtain ⟨gf, fs⟩ := p
    rfl

theorem generatorApply_retry_count (s : WState) (response : String) :
    (generatorApply s response).retry_count = s.retry_count := by
  unfold generatorApply
  cases hm : codeGeneratorRun s.file_structure s.generated_files response with
  | none => rfl
  | some p =>
    obtain ⟨gf, fs⟩ := p
    rfl

theorem generatorApply_node (s : WState) (response : String) :
    (generatorApply s response).node = .codeGenerator ∨
    (generatorApply s response).node = .codeValidator := by
  unfold generatorApply code_generation_router
  cases hm : codeGeneratorRun s.file_structure s.generated_files response with
  | none =>
    dsimp only
    split
    · left; rfl
    · right; rfl
  | some p =>
    obtain ⟨gf, fs⟩ := p
    dsimp only
    split
    · left; rfl
    · right; rfl

theorem validatorApply_node (s : WState) (report : String)
    (parsed : Option FileMap) :
    (validatorApply s report parsed).node = .securityScanner ∨
    (validatorApply s report parsed).node = .errorAnalyzer := by
  unfold validatorApply validation_router
  dsimp only
  split
  · left; rfl
  · right; rfl

theorem securityApply_node (s : WState) (scanReport : String) :
    (securityApply s scanReport).node = .deployer := by
  unfold securityApply security_router
  dsimp only
  rw [securityScannerRun_passed scanReport]
  rfl

theorem deployerApply_node (s : WState) (applyReport : String) :
    (deployerApply s applyReport).node = .costEstimator ∨
    (deployerApply s applyReport).node = .errorAnalyzer := by
  unfold deployerApply deployment_router
  dsimp only
  split
  · left; rfl
  · right; rfl

/-- The only route into the Planner besides the session entry point is
`retry_or_end_router`, whose guard must have held on the pre-state. -/
theorem errorAnalyzerApply_node_planner (s : WState)
    (h : (errorAnalyzerApply s).node = .planner) :
    s.human_feedback ≠ "" ∨ s.retry_count < MAX_RETRIES := by
  have h' : stringToNode (error_analysis_router (errorAnalyzerMerge s))
      = .planner := h
  unfold error_analysis_router retry_or_end_router at h'
  split at h'
  · split at h'
    · assumption
    · exact absurd h' (by decide)
  · exact absurd h' (by decide)

/-- The reachability invariant behind C1: human feedback is never modified
by any stage, and while it is empty the retry count stays within
`MAX_RETRIES`, with strict inequality whenever control is at the Planner. -/
theorem reachable_invariant (req f : String) (s : WState)
    (h : Reachable req f s) :
    s.human_feedback = f ∧
    (f = "" → s.retry_count ≤ MAX_RETRIES ∧
      (s.node = .planner → s.retry_count < MAX_RETRIES)) := by
  induction h with
  | refl =>
    refine ⟨rfl, fun _ => ⟨?_, fun _ => ?_⟩⟩
    · show (0 : Nat) ≤ MAX_RETRIES
      decide
    · show (0 : Nat) < MAX_RETRIES
      decide
  | @tail b c hr hstep ih =>
    obtain ⟨ihf, ihr⟩ := ih
    cases hstep with
    | planner parse plan fs hn =>
      refine ⟨ihf, fun hf => ?_⟩
      obtain ⟨hle, hlt⟩ := ihr hf
      have hretry : (plannerApply b parse plan fs).retry_count
          = plannerNextRetry b.retry_count b.validation_report
              b.validation_passed := by
        show (plannerRun b.initial_request b.retry_count b.validation_report
          b.validation_passed parse).retry_count = _
        exact plannerRun_retry_count _ _ _ _ _
      constructor
      · rw [hretry]
        have h1 := plannerNextRetry_le b.retry_count b.validation_report
          b.validation_passed
        have h2 := hlt hn
        unfold MAX_RETRIES at h2 ⊢
        omega
      · intro hnp
        have hnode : (plannerApply b parse plan fs).node = Node.codeGenerator := rfl
        rw [hnode] at hnp
        exact absurd hnp (by decide)
    | generator response hn =>
      refine ⟨by rw [generatorApply_human_feedback]; exact ihf, fun hf => ?_⟩
      obtain ⟨hle, _⟩ := ihr hf
      constructor
      · rw [generatorApply_retry_count]
        exact hle
      · intro hnp
        rcases generatorApply_node b response with h | h <;> rw [h] at hnp <;>
          exact absurd hnp (by decide)
    | validator report parsed hn =>
      refine ⟨ihf, fun hf => ?_⟩
      obtain ⟨hle, _⟩ := ihr hf
      refine ⟨hle, fun hnp => ?_⟩
      rcases validatorApply_node b report parsed with h | h <;> rw [h] at hnp <;>
        exact absurd hnp (by decide)
    | security scanReport hn =>
      refine ⟨ihf, fun hf => ?_⟩
      obtain ⟨hle, _⟩ := ihr hf
      refine ⟨hle, fun hnp => ?_⟩
      rw [securityApply_node b scanReport] at hnp
      exact absurd hnp (by decide)
    | deployer applyReport hn =>
      refine ⟨ihf, fun hf => ?_⟩
      obtain ⟨hle, _⟩ := ihr hf
      refine ⟨hle, fun hnp => ?_⟩
      rcases deployerApply_node b applyReport with h | h <;> rw [h] at hnp <;>
        exact absurd hnp (by decide)
    | cost costReport hn =>
      refine ⟨ihf, fun hf => ?_⟩
      obtain ⟨hle, _⟩ := ihr hf
      refine ⟨hle, fun hnp => ?_⟩
      have hnode : (costApply b costReport).node = Node.terminal := rfl
      rw [hnode] at hnp
      exact absurd hnp (by decide)
    | analyzer hn =>
      refine ⟨ihf, fun hf => ?_⟩
      obtain ⟨hle, _⟩ := ihr hf
      refine ⟨hle, fun hnp => ?_⟩
      rcases errorAnalyzerApply_node_planner b hnp with hfb | hlt'
      · exact absurd (by rw [ihf, hf] : b.human_feedback = "") hfb
      · exact hlt'
    | fixer response hn =>
      refine ⟨ihf, fun hf => ?_⟩
      obtain ⟨hle, _⟩ := ihr hf
      refine ⟨hle, fun hnp => ?_⟩
      have hnode : (targetedFixApply b response).node = Node.codeValidator := rfl
      rw [hnode] at hnp
      exact absurd hnp (by decide)

/-- C1: in every reachable pipeline state with empty `human_feedback`,
`retry_count` never exceeds `MAX_RETRIES`; moreover the Planner raises the
count by at most one per planning cycle, and only when re-entering after a
recorded validation failure (never on a fresh entry or after a pass). -/
theorem retry_count_bounded_without_feedback (req f : String) (s : WState)
    (hreach : Reachable req f s) (hfb : s.human_feedback = "") :
    s.retry_count ≤ MAX_RETRIES ∧
    (∀ r0 vr vp, plannerNextRetry r0 vr vp ≤ r0 + 1) ∧
    (∀ r0 vp, plannerNextRetry r0 "" vp = r0) ∧
    (∀ r0 vr, plannerNextRetry r0 vr true = r0) := by
  obtain ⟨hf, hr⟩ := reachable_invariant req f s hreach
  have hfe : f = "" := hf.symm.trans hfb
  refine ⟨(hr hfe).1, fun r0 vr vp => plannerNextRetry_le r0 vr vp,
    fun r0 vp => plannerNextRetry_no_failure r0 "" vp (by simp),
    fun r0 vr => plannerNextRetry_no_failure r0 vr true (by simp)⟩

/-- C1 witness: the theorem applied at the session's initial state. -/
theorem retry_count_bounded_without_feedback_witness :
    Reachable "an S3 bucket" "" (initState "an S3 bucket" "") ∧
    (initState "an S3 bucket" "").human_feedback = "" ∧
    (initState "an S3 bucket" "").retry_count ≤ MAX_RETRIES :=
  ⟨Relation.ReflTransGen.refl, rfl,
   (retry_count_bounded_without_feedback "an S3 bucket" "" _
     Relation.ReflTransGen.refl rfl).1⟩

/-!
## Human-feedback re-entry (C3)

A session whose state carries non-empty `human_feedback` is routed back to
the Planner by `retry_or_end_router` no matter how large `retry_count` is,
and no stage ever clears `human_feedback`; the concrete cycle below shows
the retry count passing `MAX_RETRIES` by arbitrarily many attempts.
-/

/-- A one-file plan entry used by the concrete feedback-driven cycle. -/
def c3spec : FileSpec := { file_name := "main.tf", brief := "b" }

/-- A well-formed collaborator parse outcome matching `c3spec`. -/
def c3parse : List (String × JValue) :=
  [("plan", .jstr "p"),
   ("files", .jarr [.jobj [("file_name", .jstr "main.tf"),
                           ("brief", .jstr "b")]])]

/-- State after the Planner step of the cycle. -/
def c3s1 (s : WState) : WState := plannerApply s (some c3parse) "p" [c3spec]

/-- State after the Generator step of the cycle. -/
def c3s2 (s : WState) : WState := generatorApply (c3s1 s) "code"

/-- State after a failing Validator step of the cycle. -/
def c3s3 (s : WState) : WState := validatorApply (c3s2 s) "Error: bad" none

/-- One full failing planning cycle: Planner, Generator, failing Validator,
ErrorAnalyzer (whose classification of `Error: bad` is `unknown` and forces
a full retry). -/
def c3cycle (s : WState) : WState := errorAnalyzerApply (c3s3 s)

theorem c3cycle_feedback (s : WState) :
    (c3cycle s).human_feedback = s.human_feedback := rfl

theorem c3cycle_report (s : WState) :
    (c3cycle s).validation_report = "Error: bad" := rfl

theorem c3cycle_passed (s : WState) :
    (c3cycle s).validation_passed = false := rfl

theorem c3cycle_retry_eq (s : WState) :
    (c3cycle s).retry_count =
      plannerNextRetry s.retry_count s.validation_report s.validation_passed :=
  rfl

theorem c3cycle_retry_succ (s : WState)
    (hvr : s.validation_report = "Error: bad")
    (hvp : s.validation_passed = false) :
    (c3cycle s).retry_count = s.retry_count + 1 := by
  rw [c3cycle_retry_eq, hvr, hvp]
  unfold plannerNextRetry
  rw [if_pos ⟨by decide, rfl⟩]

theorem c3cycle_node (s : WState) (hfb : s.human_feedback = "fix") :
    (c3cycle s).node = .planner := by
  have hneeds : (errorAnalyzerMerge (c3s3 s)).needs_full_retry = true := rfl
  have hfb3 : (errorAnalyzerMerge (c3s3 s)).human_feedback = "fix" := hfb
  show stringToNode (error_analysis_router (errorAnalyzerMerge (c3s3 s)))
    = .planner
  unfold error_analysis_router retry_or_end_router
  rw [if_pos hneeds, if_pos (Or.inl (by rw [hfb3]; decide))]
  rfl

theorem c3cycle_steps (s : WState) (hn : s.node = .planner) :
    Relation.ReflTransGen Step s (c3cycle s) := by
  have st1 : Step s (c3s1 s) := Step.planner s (some c3parse) "p" [c3spec] hn
  have st2 : Step (c3s1 s) (c3s2 s) := Step.generator _ "code" rfl
  have st3 : Step (c3s2 s) (c3s3 s) := Step.validator _ "Error: bad" none rfl
  have st4 : Step (c3s3 s) (c3cycle s) := Step.analyzer _ rfl
  exact (((Relation.ReflTransGen.refl.tail st1).tail st2).tail st3).tail st4

/-- With feedback set, every retry count is eventually exceeded: the
feedback-driven cycle can repeat without bound. -/
theorem c3cycle_unbounded (n : Nat) :
    ∃ s : WState, Reachable "req" "fix" s ∧ n ≤ s.retry_count ∧
      s.node = .planner ∧ s.human_feedback = "fix" ∧
      s.validation_report = "Error: bad" ∧ s.validation_passed = false := by
  induction n with
  | zero =>
    refine ⟨c3cycle (initState "req" "fix"),
      c3cycle_steps _ rfl, Nat.zero_le _, c3cycle_node _ rfl,
      c3cycle_feedback _, c3cycle_report _, c3cycle_passed _⟩
  | succ n ih =>
    obtain ⟨s, hreach, hn, hnode, hfb, hvr, hvp⟩ := ih
    refine ⟨c3cycle s, hreach.trans (c3cycle_steps s hnode), ?_,
      c3cycle_node s hfb, (c3cycle_feedback s).trans hfb,
      c3cycle_report s, c3cycle_passed s⟩
    rw [c3cycle_retry_succ s hvr hvp]
    omega

/-- Iterating the failing cycle keeps the session in the feedback-driven
re-entry loop, with `retry_count` growing by one per iteration. -/
theorem c3cycle_iterate_reach (n : Nat) :
    Reachable "req" "fix" (c3cycle^[n] (c3cycle (initState "req" "fix"))) ∧
    (c3cycle^[n] (c3cycle (initState "req" "fix"))).node = .planner ∧
    (c3cycle^[n] (c3cycle (initState "req" "fix"))).human_feedback = "fix" ∧
    (c3cycle^[n] (c3cycle (initState "req" "fix"))).validation_report
      = "Error: bad" ∧
    (c3cycle^[n] (c3cycle (initState "req" "fix"))).validation_passed = false ∧
    (c3cycle^[n] (c3cycle (initState "req" "fix"))).retry_count = n := by
  induction n with
  | zero =>
    refine ⟨c3cycle_steps _ rfl, c3cycle_node _ rfl, rfl, rfl, rfl, ?_⟩
    rw [Function.iterate_zero_apply, c3cycle_retry_eq]
    show plannerNextRetry 0 "" false = 0
    unfold plannerNextRetry
    rw [if_neg (fun hcon => hcon.1 rfl)]
  | succ n ih =>
    obtain ⟨hr, hnode, hfb, hvr, hvp, hrc⟩ := ih
    rw [Function.iterate_succ_apply']
    refine ⟨hr.trans (c3cycle_steps _ hnode), c3cycle_node _ hfb,
      (c3cycle_feedback _).trans hfb, c3cycle_report _, c3cycle_passed _, ?_⟩
    rw [c3cycle_retry_succ _ hvr hvp, hrc]

/-- C3 counterexample: with `human_feedback` set, a reachable state exists
whose `retry_count` equals `MAX_RETRIES + 2` — the session was routed back
to the Planner more than once past the bound, so feedback does not grant
exactly one additional attempt. -/
theorem feedback_reentry_counterexample :
    Reachable "req" "fix" (c3cycle^[5] (c3cycle (initState "req" "fix"))) ∧
    (c3cycle^[5] (c3cycle (initState "req" "fix"))).retry_count
      = MAX_RETRIES + 2 ∧
    MAX_RETRIES + 1 < (c3cycle^[5] (c3cycle (initState "req" "fix"))).retry_count := by
  obtain ⟨hr, _, _, _, _, hc⟩ := c3cycle_iterate_reach 5
  refine ⟨hr, ?_, ?_⟩
  · rw [hc]
    decide
  · rw [hc]
    decide

/-- C3 (amended): when `human_feedback` is set, the retry-or-end decision
routes to the Planner regardless of `retry_count`; since no stage ever
clears `human_feedback`, this grants not one but unboundedly many
additional attempts beyond `MAX_RETRIES` for as long as the feedback
remains set. -/
theorem feedback_bypasses_retry_bound :
    (∀ s : WState, s.human_feedback ≠ "" →
      retry_or_end_router s = "planner_architect") ∧
    (∀ n : Nat, ∃ s : WState,
      Reachable "req" "fix" s ∧ n ≤ s.retry_count) := by
  constructor
  · intro s h
    unfold retry_or_end_router
    rw [if_pos (Or.inl h)]
  · intro n
    obtain ⟨s, hreach, hn, _⟩ := c3cycle_unbounded n
    exact ⟨s, hreach, hn⟩

/-- C3 witness: the amended theorem applied at a state far past the retry
bound and at the bound `MAX_RETRIES + 1`. -/
theorem feedback_bypasses_retry_bound_witness :
    retry_or_end_router { initState "req" "fix" with retry_count := 99 }
      = "planner_architect" ∧
    (∃ s : WState, Reachable "req" "fix" s ∧
      MAX_RETRIES + 1 ≤ s.retry_count) :=
  ⟨feedback_bypasses_retry_bound.1 _ (by decide),
   feedback_bypasses_retry_bound.2 (MAX_RETRIES + 1)⟩

/-!
## Validator idempotence (C7)
-/

theorem string_data_append (a b : String) : (a ++ b).data = a.data ++ b.data := by
  cases a
  cases b
  rfl

theorem string_mk_data (s : String) : String.mk s.data = s := by
  cases s
  rfl

theorem newline_append_data (t : String) :
    ("\n" ++ t).data = '\n' :: t.data := by
  rw [string_data_append]
  rfl

/-- On a successfully validating input, the Validator reports success and
replaces the artifact map with the collaborator's formatted version. -/
theorem codeValidatorRun_success (env : ValidatorEnv) (files : FileMap)
    (hval : env.valOk files = true)
    (hnp : strContains ("\n" ++ env.dumps (env.fmt files))
      VALIDATION_PREFIX = false)
    (hround : env.loads (pyStrip ("\n" ++ env.dumps (env.fmt files)))
      = some (env.fmt files)) :
    (codeValidatorRun env files).validation_passed = true ∧
    (codeValidatorRun env files).generated_files = env.fmt files := by
  have hreport : terraform_validate_tool env files
      = successHeader ++ VALIDATION_PREFIX ++ ("\n" ++ env.dumps (env.fmt files)) := by
    unfold terraform_validate_tool
    rw [if_pos hval]
  have hpassed : strContains
      (successHeader ++ VALIDATION_PREFIX ++ ("\n" ++ env.dumps (env.fmt files)))
      VALIDATION_SUCCESS = true := by
    have hshape : successHeader ++ VALIDATION_PREFIX ++
        ("\n" ++ env.dumps (env.fmt files))
        = VALIDATION_SUCCESS ++
          (". Code is syntactically correct and well-formed.\n\n" ++
            (VALIDATION_PREFIX ++ ("\n" ++ env.dumps (env.fmt files)))) := by
      unfold successHeader
      rw [String.append_assoc, String.append_assoc]
    rw [hshape]
    exact strContains_of_append _ _
  have hsplit : pySplitStr
      (successHeader ++ VALIDATION_PREFIX ++ ("\n" ++ env.dumps (env.fmt files)))
      VALIDATION_PREFIX
      = [successHeader, "\n" ++ env.dumps (env.fmt files)] := by
    unfold pySplitStr
    have hdata : (successHeader ++ VALIDATION_PREFIX ++
        ("\n" ++ env.dumps (env.fmt files))).data
        = successHeader.data ++ (VALIDATION_PREFIX.data ++
            ("\n" ++ env.dumps (env.fmt files)).data) := by
      rw [string_data_append, string_data_append, List.append_assoc]
    rw [hdata,
      pySplit_sandwich successHeader.data VALIDATION_PREFIX.data
        ("\n" ++ env.dumps (env.fmt files)).data 'F'
        ("ormatted Files JSON:".data) (by decide) (by decide) hnp]
    simp only [List.map_cons, List.map_nil, string_mk_data]
  constructor
  · show strContains (terraform_validate_tool env files) VALIDATION_SUCCESS = true
    rw [hreport]
    exact hpassed
  · unfold codeValidatorRun
    dsimp only
    rw [hreport, hpassed, if_pos rfl, hsplit]
    dsimp only
    rw [hround]

/-- C7: re-running the Validator on an artifact map that already validated
successfully (and was not changed in between) yields
`validation_passed = true` and an artifact map identical to its input.  The
hypotheses are the collaborator contract on this input: the formatter is
idempotent and validity-preserving, and the stdlib JSON round-trip
reproduces the formatted map (whose dump does not contain the report
separator). -/
theorem validator_idempotent (env : ValidatorEnv) (files : FileMap)
    (hval1 : env.valOk files = true)
    (hval2 : env.valOk (env.fmt files) = true)
    (hfmt : env.fmt (env.fmt files) = env.fmt files)
    (hnp : strContains ("\n" ++ env.dumps (env.fmt files))
      VALIDATION_PREFIX = false)
    (hround : env.loads (pyStrip ("\n" ++ env.dumps (env.fmt files)))
      = some (env.fmt files)) :
    (codeValidatorRun env files).validation_passed = true ∧
    (codeValidatorRun env (codeValidatorRun env files).generated_files).validation_passed
      = true ∧
    (codeValidatorRun env (codeValidatorRun env files).generated_files).generated_files
      = (codeValidatorRun env files).generated_files := by
  obtain ⟨hp1, hg1⟩ := codeValidatorRun_success env files hval1 hnp hround
  have hnp2 : strContains ("\n" ++ env.dumps (env.fmt (env.fmt files)))
      VALIDATION_PREFIX = false := by
    rw [hfmt]
    exact hnp
  have hround2 : env.loads (pyStrip ("\n" ++ env.dumps (env.fmt (env.fmt files))))
      = some (env.fmt (env.fmt files)) := by
    rw [hfmt]
    exact hround
  obtain ⟨hp2, hg2⟩ := codeValidatorRun_success env (env.fmt files) hval2 hnp2 hround2
  rw [hg1]
  exact ⟨hp1, hp2, by rw [hg2, hfmt]⟩

/-- A concrete validator collaborator for the C7 witness: the identity
formatter with a fixed serialisation token. -/
def c7env : ValidatorEnv :=
  { fmt := id,
    valOk := fun _ => true,
    errText := fun _ => "",
    dumps := fun _ => "FILES",
    loads := fun s => if s = "FILES" then some ([] : FileMap) else none }

/-- C7 witness: the theorem applied to the concrete collaborator `c7env`
and the empty artifact map. -/
theorem validator_idempotent_witness :
    c7env.valOk ([] : FileMap) = true ∧
    (codeValidatorRun c7env []).validation_passed = true ∧
    (codeValidatorRun c7env (codeValidatorRun c7env []).generated_files).validation_passed
      = true ∧
    (codeValidatorRun c7env (codeValidatorRun c7env []).generated_files).generated_files
      = (codeValidatorRun c7env []).generated_files := by
  have h := validator_idempotent c7env [] rfl rfl rfl (by decide) (by decide)
  exact ⟨rfl, h.1, h.2.1, h.2.2⟩
